import Mathlib

/-!
Shallow embedding of `src/voice/kokoro/server.py`, a minimal Kokoro TTS HTTP
server.  Python strings are modelled as lists of Unicode code points, the
module-level mutable state (`pipelines`, `nan_recoveries`) as an explicit
`ServerState` threaded through the functions, and the external collaborators
(the KPipeline model, `load_voice`, ffmpeg, `os.listdir`, `json.loads`) as an
`Oracle` of outcomes.  Each handler returns, besides the HTTP response, the
final state and a trace of the externally visible events (inference calls,
cache evictions and creations, body reads, encoder invocations).
-/

set_option maxHeartbeats 1000000

namespace Kokoro

/-- Python strings modelled as their sequence of Unicode code points. -/
abbrev PyStr := List Char

/-- Turn a Lean string literal into the `PyStr` model. -/
def pyS (s : String) : PyStr := s.toList

/-- An audio sample abstracted to its IEEE-754 classification: an ordinary
finite number, a NaN, or an infinity.  `np.isnan` recognises exactly the NaN
class; `np.isfinite` excludes both NaN and infinities. -/
inductive Sample
  | finite
  | nan
  | inf
deriving DecidableEq

/-- `np.isnan(audio).any()` over the flat sample buffer (line 82/93). -/
def hasNaN (audio : List Sample) : Bool := audio.any (fun s => s = Sample.nan)

/-- A sample is non-finite when it is NaN or an infinity (the complement of
`np.isfinite`); the spec's phrase "non-finite value" denotes this class. -/
def isNonFinite (s : Sample) : Bool := s ≠ Sample.finite

/-- The buffer contains at least one non-finite value (spec wording). -/
def hasNonFinite (audio : List Sample) : Bool := audio.any isNonFinite

/-- The Python exceptions the server can raise or catch, with their
`str(e)` message. -/
inductive PyErr
  | typeError (msg : PyStr)
  | valueError (msg : PyStr)
  | runtimeError (msg : PyStr)
  | indexError (msg : PyStr)
deriving DecidableEq

/-- `str(e)` of an exception. -/
def errMsg : PyErr → PyStr
  | .typeError m => m
  | .valueError m => m
  | .runtimeError m => m
  | .indexError m => m

/-- JSON values as decoded by `json.loads` (objects other than the request
body itself do not occur in the handler, so they are not modelled). -/
inductive JVal
  | jstr (s : PyStr)
  | jnum (n : Int)
  | jbool (b : Bool)
  | jnull
  | jarr (xs : List JVal)

/-- The Python type name of a JSON value, as it appears in error messages. -/
def typeName : JVal → PyStr
  | .jstr _ => pyS "str"
  | .jnum _ => pyS "int"
  | .jbool _ => pyS "bool"
  | .jnull => pyS "NoneType"
  | .jarr _ => pyS "list"

/-- Python truthiness of a JSON value (`if not text:`). -/
def truthy : JVal → Bool
  | .jstr s => !s.isEmpty
  | .jnum n => n != 0
  | .jbool b => b
  | .jnull => false
  | .jarr xs => !xs.isEmpty

/-- Python `len(...)`: defined for strings and lists, a `TypeError` for
numbers, booleans and `None`. -/
def pyLen : JVal → Except PyErr Nat
  | .jstr s => .ok s.length
  | .jarr xs => .ok xs.length
  | t => .error (.typeError (pyS "object of type '" ++ typeName t ++ pyS "' has no len()"))

/-- Char class `[a-z]`. -/
def isLowerAZ (c : Char) : Bool := 'a' ≤ c && c ≤ 'z'

/-- Char class `[a-z0-9_]`. -/
def isVoiceTailChar (c : Char) : Bool := isLowerAZ c || ('0' ≤ c && c ≤ '9') || c = '_'

/-- The regex body `[a-z]{2}_[a-z0-9_]+` matched against an entire char list. -/
def voiceCore : List Char → Bool
  | c1 :: c2 :: '_' :: rest => isLowerAZ c1 && isLowerAZ c2 && !rest.isEmpty && rest.all isVoiceTailChar
  | _ => false

/-- Truthiness of `re.match(VOICE_PATTERN, s)` (line 130) under Python's
semantics: `$` matches at the very end of the string or just before a single
trailing newline, so `s` is accepted when the whole of `s`, or the whole of
`s` less one final `'\n'`, matches the body. -/
def reMatchVoice (s : PyStr) : Bool :=
  voiceCore s ||
    (match s.getLast? with
     | some c => c = '\n' && voiceCore s.dropLast
     | none => false)

/-- The spec's reading of `^[a-z]{2}_[a-z0-9_]+$`: an anchored exact match of
the body over the entire string, with nothing (not even a newline) trailing. -/
def anchoredVoiceMatch (s : PyStr) : Bool := voiceCore s

/- ### The pipeline cache: a Python dict keyed by language-code strings. -/

/-- Dict lookup `d.get(k)` / `k in d`, `none` when the key is absent. -/
def dictGet (m : List (PyStr × Nat)) (k : PyStr) : Option Nat :=
  match m with
  | [] => none
  | (k', v) :: rest => if k' = k then some v else dictGet rest k

/-- Dict assignment `d[k] = v`: replace in place when present, append when
absent. -/
def dictSet (m : List (PyStr × Nat)) (k : PyStr) (v : Nat) : List (PyStr × Nat) :=
  match m with
  | [] => [(k, v)]
  | (k', w) :: rest => if k' = k then (k, v) :: rest else (k', w) :: dictSet rest k v

/-- `d.pop(k, None)`: drop the binding for `k` when present. -/
def dictPop (m : List (PyStr × Nat)) (k : PyStr) : List (PyStr × Nat) :=
  match m with
  | [] => []
  | (k', w) :: rest => if k' = k then rest else (k', w) :: dictPop rest k

/-- `list(d.keys())`. -/
def dictKeys (m : List (PyStr × Nat)) : List PyStr := m.map Prod.fst

/-- The module-level mutable state: the `pipelines` dict (pipelines are
identified by the order of their construction), a fresh-id counter recording
how many pipelines have been constructed so far, and the `nan_recoveries`
counter. -/
structure ServerState where
  pipelines : List (PyStr × Nat)
  nextId : Nat
  nan_recoveries : Nat
deriving DecidableEq

/-- Every cached pipeline id was minted by the fresh-id counter. -/
def stWF (st : ServerState) : Bool := st.pipelines.all (fun kv => kv.2 < st.nextId)

/-- Externally visible events of one request, in order. -/
inductive Ev
  | createPipe (lang : PyStr)
  | warmupCall (lang : PyStr)
  | evict (lang : PyStr)
  | inferCall
  | encodeCall
  | readBody
deriving DecidableEq

/-- Number of `_run_inference` calls recorded in a trace. -/
def countInfer (tr : List Ev) : Nat := tr.countP (fun e => e = Ev.inferCall)

/-- Request body fields as decoded by `json.loads` (only `text` and `voice`
are ever read from the body). -/
structure TtsBody where
  text : Option JVal
  voice : Option JVal

/-- Outcomes of the external collaborators during one request: warmup and
`load_voice` outcomes for up to two `get_pipeline`/inference rounds, the
chunk lists the pipeline yields on each of the up-to-two inference calls,
the JSON decoder, the ffmpeg run, and the voice-directory listing. -/
structure Oracle where
  warmup1 : Except PyErr Unit
  warmup2 : Except PyErr Unit
  loadVoice1 : Except PyErr Unit
  loadVoice2 : Except PyErr Unit
  infer1 : List (List Sample)
  infer2 : List (List Sample)
  decodeJson : List Nat → Except Unit TtsBody
  ffmpegReturncode : Int
  ffmpegStdout : List Nat
  ffmpegStderr : PyStr
  listdirResult : Except PyErr (List PyStr)

/-- `get_pipeline` (lines 26-48): return the cached pipeline for
`lang_code`, or construct a fresh one, run the best-effort warmup pass whose
outcome `w` is swallowed by `try:... except Exception: pass`, cache the
pipeline and return it. -/
def get_pipeline (w : Except PyErr Unit) (lang_code : PyStr) (st : ServerState) :
    Nat × ServerState × List Ev :=
  match dictGet st.pipelines lang_code with
  | some p => (p, st, [])
  | none =>
    let pipe := st.nextId
    let _warmupOutcome : Unit :=
      match w with
      | .ok _ => ()
      | .error _ => ()
    (pipe,
     { st with pipelines := dictSet st.pipelines lang_code pipe, nextId := st.nextId + 1 },
     [Ev.createPipe lang_code, Ev.warmupCall lang_code])

/-- `_run_inference` (lines 51-58): concatenate the chunks the pipeline
yields; raise `RuntimeError("No audio generated")` when no chunks come out. -/
def run_inference (chunks : List (List Sample)) : Except PyErr (List Sample) :=
  if chunks.isEmpty then .error (.runtimeError (pyS "No audio generated"))
  else .ok chunks.flatten

/-- `_audio_to_mp3` (lines 61-71): serialize to WAV and pipe through ffmpeg;
a non-zero exit raises `RuntimeError` carrying the first 200 chars of
ffmpeg's stderr, otherwise the stdout bytes are the MP3. -/
def audio_to_mp3 (o : Oracle) (audio : List Sample) : Except PyErr (List Nat) :=
  if o.ffmpegReturncode != 0 then
    .error (.runtimeError (pyS "ffmpeg error: " ++ o.ffmpegStderr.take 200))
  else .ok o.ffmpegStdout

/-- `generate_mp3` (lines 74-100): pick the language code `voice_name[0]`,
get the pipeline, load the voice, run inference; when `np.isnan(...).any()`
finds a NaN, evict the cached pipeline, recreate it, reload the voice and
rerun inference once; a NaN on the second attempt raises; a successful
recovery bumps `nan_recoveries` before encoding.  Returns the Python result
(value or raised exception), the final state and the event trace. -/
def generate_mp3 (o : Oracle) (text : JVal) (voice_name : PyStr) (st : ServerState) :
    Except PyErr (List Nat) × ServerState × List Ev :=
  match voice_name with
  | [] => (.error (.indexError (pyS "string index out of range")), st, [])
  | c :: _ =>
    let lang_code : PyStr := [c]
    let gp1 := get_pipeline o.warmup1 lang_code st
    let st1 := gp1.2.1
    let ev1 := gp1.2.2
    match o.loadVoice1 with
    | .error e => (.error e, st1, ev1)
    | .ok _ =>
      match run_inference o.infer1 with
      | .error e => (.error e, st1, ev1 ++ [Ev.inferCall])
      | .ok audio =>
        if !(hasNaN audio) then
          (audio_to_mp3 o audio, st1, ev1 ++ [Ev.inferCall, Ev.encodeCall])
        else
          let st2 := { st1 with pipelines := dictPop st1.pipelines lang_code }
          let gp2 := get_pipeline o.warmup2 lang_code st2
          let st3 := gp2.2.1
          let ev2 := gp2.2.2
          match o.loadVoice2 with
          | .error e => (.error e, st3, ev1 ++ [Ev.inferCall, Ev.evict lang_code] ++ ev2)
          | .ok _ =>
            match run_inference o.infer2 with
            | .error e =>
              (.error e, st3, ev1 ++ [Ev.inferCall, Ev.evict lang_code] ++ ev2 ++ [Ev.inferCall])
            | .ok audio2 =>
              if hasNaN audio2 then
                (.error (.runtimeError (pyS "NaN in audio output after pipeline reload")), st3,
                 ev1 ++ [Ev.inferCall, Ev.evict lang_code] ++ ev2 ++ [Ev.inferCall])
              else
                let st4 := { st3 with nan_recoveries := st3.nan_recoveries + 1 }
                (audio_to_mp3 o audio2, st4,
                 ev1 ++ [Ev.inferCall, Ev.evict lang_code] ++ ev2 ++ [Ev.inferCall, Ev.encodeCall])

/- ### The HTTP request handler. -/

def MAX_TEXT_LENGTH : Nat := 10000
def MAX_BODY_SIZE : Nat := 1000000

/-- The whitespace Python's `int(str)` strips before parsing. -/
def isPyWs (c : Char) : Bool :=
  c = ' ' || c = '\t' || c = '\n' || c = '\r' || c = '\x0b' || c = '\x0c'

/-- Value of an ASCII decimal digit. -/
def digitVal (c : Char) : Option Nat :=
  if '0' ≤ c ∧ c ≤ '9' then some (c.toNat - 48) else none

/-- Digits after the first, allowing single underscores between digits. -/
def digitsCore : Nat → List Char → Option Nat
  | acc, [] => some acc
  | acc, '_' :: c :: rest =>
    match digitVal c with
    | some d => digitsCore (acc * 10 + d) rest
    | none => none
  | _, ['_'] => none
  | acc, c :: rest =>
    match digitVal c with
    | some d => digitsCore (acc * 10 + d) rest
    | none => none

/-- An unsigned decimal literal: a leading digit then `digitsCore`. -/
def parseDigits : List Char → Option Nat
  | [] => none
  | c :: rest =>
    match digitVal c with
    | some d => digitsCore d rest
    | none => none

/-- Python `int(s)` on a decimal string: strip whitespace, optional sign,
ASCII digits with optional single underscores between digits; anything else
raises `ValueError`.  (Non-ASCII decimal digits are not modelled.) -/
def pyIntOfChars (s : PyStr) : Except PyErr Int :=
  let t := ((s.dropWhile isPyWs).reverse.dropWhile isPyWs).reverse
  let failure : Except PyErr Int :=
    .error (.valueError (pyS "invalid literal for int() with base 10"))
  match t with
  | '+' :: rest =>
    match parseDigits rest with
    | some n => .ok (n : Int)
    | none => failure
  | '-' :: rest =>
    match parseDigits rest with
    | some n => .ok (-(n : Int))
    | none => failure
  | rest =>
    match parseDigits rest with
    | some n => .ok (n : Int)
    | none => failure

/-- `int(self.headers.get('Content-Length', 0))` (line 108): an absent header
defaults to the integer `0`; a present header is parsed as a decimal. -/
def contentLengthOf (h : Option PyStr) : Except PyErr Int :=
  match h with
  | none => .ok 0
  | some s => pyIntOfChars s

/-- `self.rfile.read(length)`: a non-negative count reads at most that many
bytes of the stream, a negative count reads the whole stream. -/
def pyRead (body : List Nat) (length : Int) : List Nat :=
  if length < 0 then body else body.take length.toNat

/-- JSON payloads the handler serializes. -/
inductive Payload
  | errorMsg (msg : PyStr)
  | voicesList (voices : List PyStr)
  | healthInfo (pipelines_loaded : List PyStr) (recoveries : Nat) (port : Nat)
deriving DecidableEq

/-- An HTTP response: a JSON body with a status, or a 200 `audio/mpeg` body. -/
inductive Resp
  | json (status : Nat) (payload : Payload)
  | audio (bytes : List Nat)
deriving DecidableEq

/-- The numeric status line of a response. -/
def Resp.status : Resp → Nat
  | .json s _ => s
  | .audio _ => 200

/-- An incoming HTTP request: path, `Content-Length` header and body bytes. -/
structure Req where
  path : PyStr
  contentLength : Option PyStr
  rawBody : List Nat

/-- One pass of `f.replace('.pt', '')`: remove every occurrence of `.pt`,
scanning left to right (lines 154 and 175). -/
def removePt : List Char → List Char
  | '.' :: 'p' :: 't' :: rest => removePt rest
  | c :: rest => c :: removePt rest
  | [] => []

/-- The filter of lines 156 and 177: `.pt` files that are not hidden. -/
def goodVoiceFile (f : PyStr) : Bool :=
  (f.drop (f.length - 3) == pyS ".pt") && !(f.take 1 == pyS ".")

/-- Lexicographic (code-point) comparison of Python strings, the order used
by `sorted` on strings. -/
def pyStrLe : PyStr → PyStr → Bool
  | [], _ => true
  | _ :: _, [] => false
  | a :: as, b :: bs => if a = b then pyStrLe as bs else decide (a < b)

/-- Insert into a `pyStrLe`-sorted list, keeping it sorted. -/
def insertSorted (x : PyStr) : List PyStr → List PyStr
  | [] => [x]
  | y :: ys => if pyStrLe x y then x :: y :: ys else y :: insertSorted x ys

/-- Python `sorted` on strings, modelled as a stable insertion sort (on a
total order any stable sort computes the same list). -/
def pySorted : List PyStr → List PyStr
  | [] => []
  | x :: xs => insertSorted x (pySorted xs)

/-- The `/voices` listing (lines 153-157 and 174-178): keep the non-hidden
`.pt` files, remove every occurrence of `.pt` from each name, and sort. -/
def voicesOf (files : List PyStr) : List PyStr :=
  pySorted ((files.filter goodVoiceFile).map removePt)

/-- The spec's derivation of one `/voices` entry: strip exactly the final
`.pt` suffix and nothing else. -/
def suffixStripped (f : PyStr) : PyStr := f.take (f.length - 3)

/-- The `/voices` listing as the spec words it: non-hidden `.pt` files with
(only) the suffix stripped, sorted. -/
def voicesOfSpec (files : List PyStr) : List PyStr :=
  pySorted ((files.filter goodVoiceFile).map suffixStripped)

/-- `TTSHandler.do_POST` (lines 104-162): route `/tts` (validate the
envelope, the text and the voice, then synthesize and encode, catching every
exception as a 500) and `/voices`; other paths are 404.  Returns the
response, the final state and the event trace. -/
def do_POST (o : Oracle) (req : Req) (st : ServerState) : Resp × ServerState × List Ev :=
  if req.path = pyS "/tts" then
    match contentLengthOf req.contentLength with
    | .error _ => (.json 400 (.errorMsg (pyS "Invalid Content-Length")), st, [])
    | .ok length =>
      if length > (MAX_BODY_SIZE : Int) then
        (.json 413 (.errorMsg (pyS "Request too large")), st, [])
      else
        match o.decodeJson (pyRead req.rawBody length) with
        | .error _ => (.json 400 (.errorMsg (pyS "Invalid JSON")), st, [Ev.readBody])
        | .ok body =>
          let text := body.text.getD (JVal.jstr [])
          let voice := body.voice.getD (JVal.jstr (pyS "af_heart"))
          if !(truthy text) then
            (.json 400 (.errorMsg (pyS "No text provided")), st, [Ev.readBody])
          else
            match pyLen text with
            | .error e => (.json 500 (.errorMsg (errMsg e)), st, [Ev.readBody])
            | .ok n =>
              if n > MAX_TEXT_LENGTH then
                (.json 400 (.errorMsg (pyS "Text too long (max 10000 chars)")), st, [Ev.readBody])
              else
                match voice with
                | JVal.jstr v =>
                  if !(reMatchVoice v) then
                    (.json 400 (.errorMsg (pyS "Invalid voice name: " ++ v)), st, [Ev.readBody])
                  else
                    match generate_mp3 o text v st with
                    | (.ok mp3, st', ev) => (.audio mp3, st', Ev.readBody :: ev)
                    | (.error e, st', ev) => (.json 500 (.errorMsg (errMsg e)), st', Ev.readBody :: ev)
                | other =>
                  (.json 500 (.errorMsg
                      (pyS "expected string or bytes-like object, got '" ++ typeName other ++ pyS "'")),
                   st, [Ev.readBody])
  else if req.path = pyS "/voices" then
    match o.listdirResult with
    | .ok files => (.json 200 (.voicesList (voicesOf files)), st, [])
    | .error e => (.json 500 (.errorMsg (errMsg e)), st, [])
  else
    (.json 404 (.errorMsg (pyS "Not found")), st, [])

/-- `TTSHandler.do_GET` (lines 164-181): `/health`, `/voices` (no
`try/except` here, so a listing failure propagates), else 404. -/
def do_GET (o : Oracle) (req : Req) (st : ServerState) : Except PyErr Resp :=
  if req.path = pyS "/health" then
    .ok (.json 200 (.healthInfo (dictKeys st.pipelines) st.nan_recoveries 7880))
  else if req.path = pyS "/voices" then
    match o.listdirResult with
    | .ok files => .ok (.json 200 (.voicesList (voicesOf files)))
    | .error e => .error e
  else
    .ok (.json 404 (.errorMsg (pyS "Not found")))

/-- Replay the cache events of a trace against the set of live language
codes: a creation is legal only for a code with no live pipeline, so a
replay that succeeds witnesses that no two pipelines for the same code were
ever live at once. -/
def replayOk (live : List PyStr) : List Ev → Bool
  | [] => true
  | Ev.createPipe c :: tr => !(live.contains c) && replayOk (c :: live) tr
  | Ev.evict c :: tr => replayOk (live.erase c) tr
  | _ :: tr => replayOk live tr

/-- The set of live language codes after replaying a trace. -/
def replayLive (live : List PyStr) : List Ev → List PyStr
  | [] => live
  | Ev.createPipe c :: tr => replayLive (c :: live) tr
  | Ev.evict c :: tr => replayLive (live.erase c) tr
  | _ :: tr => replayLive live tr

/-- The first `get_pipeline` round of `generate_mp3`. -/
def firstRound (o : Oracle) (c : Char) (st : ServerState) : Nat × ServerState × List Ev :=
  get_pipeline o.warmup1 [c] st

/-- The recreation round of `generate_mp3`: the cached pipeline for the code
is popped, then `get_pipeline` runs on the shrunken cache. -/
def secondRound (o : Oracle) (c : Char) (st : ServerState) : Nat × ServerState × List Ev :=
  get_pipeline o.warmup2 [c]
    { (firstRound o c st).2.1 with
      pipelines := dictPop ((firstRound o c st).2.1).pipelines [c] }

/-! Concrete inputs used by witnesses and counterexamples. -/

/-- The empty starting state (no pipeline loaded yet). -/
def st0 : ServerState := ⟨[], 0, 0⟩

/-- A baseline oracle: every collaborator succeeds and every synthesis
output is a single finite sample. -/
def oBase : Oracle where
  warmup1 := .ok ()
  warmup2 := .ok ()
  loadVoice1 := .ok ()
  loadVoice2 := .ok ()
  infer1 := [[Sample.finite]]
  infer2 := [[Sample.finite]]
  decodeJson := fun _ => .error ()
  ffmpegReturncode := 0
  ffmpegStdout := [1, 2, 3]
  ffmpegStderr := []
  listdirResult := .ok []

/-- A request envelope for `/tts` with a small declared length. -/
def reqTts : Req := ⟨pyS "/tts", some (pyS "50"), []⟩

/-- Oracle whose first synthesis output holds a NaN and second is clean. -/
def oNaNClean : Oracle := { oBase with infer1 := [[Sample.nan]] }

/-- Oracle whose synthesis outputs hold a NaN on both attempts. -/
def oNaNNaN : Oracle := { oBase with infer1 := [[Sample.nan]], infer2 := [[Sample.nan]] }

/-- Oracle whose first synthesis output holds an infinity but no NaN. -/
def oInfFirst : Oracle := { oBase with infer1 := [[Sample.inf]] }

/-- Body decoder yielding the given fields, as `json.loads` would. -/
def decodeTo (t v : Option JVal) : List Nat → Except Unit TtsBody := fun _ => .ok ⟨t, v⟩

/-- A well-formed body: text "hi", voice "af_heart". -/
def bodyHeart : TtsBody := ⟨some (.jstr (pyS "hi")), some (.jstr (pyS "af_heart"))⟩

/-- Oracle for a run with NaN on both attempts and a well-formed body. -/
def oC2w : Oracle :=
  { oBase with
    infer1 := [[Sample.nan]]
    infer2 := [[Sample.nan]]
    decodeJson := fun _ => .ok bodyHeart }

/-- Oracle for a run with infinities (never NaN) on both attempts and a
well-formed body. -/
def oC2ce : Oracle :=
  { oBase with
    infer1 := [[Sample.inf]]
    infer2 := [[Sample.inf]]
    decodeJson := fun _ => .ok bodyHeart }

/-- Oracle for a run whose body carries a voice with a trailing newline. -/
def oC6ce : Oracle :=
  { oBase with decodeJson := decodeTo (some (.jstr (pyS "hi"))) (some (.jstr (pyS "af_heart\n"))) }

/-- Oracle for a run whose body carries a clearly invalid voice string. -/
def oC6w : Oracle :=
  { oBase with decodeJson := decodeTo (some (.jstr (pyS "hi"))) (some (.jstr (pyS "BAD"))) }

/-- Oracle for a run whose body maps `text` to the number 5. -/
def oC10w : Oracle := { oBase with decodeJson := decodeTo (some (.jnum 5)) none }

/-- Oracle for a run whose body maps `text` to a nonempty JSON array. -/
def oC10ce : Oracle :=
  { oBase with decodeJson := decodeTo (some (.jarr [.jstr (pyS "hi")])) none }

/-! ### Basic lemmas about the dict model -/

theorem dictGet_dictSet_self (m : List (PyStr × Nat)) (k : PyStr) (v : Nat) :
    dictGet (dictSet m k v) k = some v := by
  induction m with
  | nil => simp [dictGet, dictSet]
  | cons kv rest ih =>
    obtain ⟨k', w⟩ := kv
    by_cases h : k' = k <;> simp [dictGet, dictSet, h, ih]

theorem dictGet_dictSet_ne (m : List (PyStr × Nat)) (k k' : PyStr) (v : Nat) (h : k' ≠ k) :
    dictGet (dictSet m k v) k' = dictGet m k' := by
  have hkk : k ≠ k' := fun hh => h hh.symm
  induction m with
  | nil =>
    simp only [dictSet, dictGet]
    rw [if_neg hkk]
  | cons kv rest ih =>
    obtain ⟨k0, w⟩ := kv
    simp only [dictSet]
    by_cases h0 : k0 = k
    · subst h0
      simp only [if_pos rfl, dictGet]
      rw [if_neg hkk, if_neg hkk]
    · simp only [if_neg h0, dictGet]
      by_cases h1 : k0 = k'
      · simp [h1]
      · simp [h1, ih]

theorem dictGet_dictPop_ne (m : List (PyStr × Nat)) (k k' : PyStr) (h : k' ≠ k) :
    dictGet (dictPop m k) k' = dictGet m k' := by
  have hkk : k ≠ k' := fun hh => h hh.symm
  induction m with
  | nil => rfl
  | cons kv rest ih =>
    obtain ⟨k0, w⟩ := kv
    by_cases h0 : k0 = k
    · subst h0
      simp [dictPop, dictGet, hkk]
    · simp [dictPop, dictGet, h0, ih]

theorem dictKeys_dictPop (m : List (PyStr × Nat)) (k : PyStr) :
    dictKeys (dictPop m k) = (dictKeys m).erase k := by
  induction m with
  | nil => rfl
  | cons kv rest ih =>
    obtain ⟨k0, w⟩ := kv
    simp only [dictPop, dictKeys, List.map_cons]
    by_cases h0 : k0 = k
    · subst h0
      simp [dictKeys, List.erase_cons_head]
    · rw [if_neg h0, List.map_cons, List.erase_cons]
      simp only [beq_iff_eq, if_neg h0]
      simpa [dictKeys] using congrArg (fun l => k0 :: l) ih

theorem dictGet_eq_none_iff (m : List (PyStr × Nat)) (k : PyStr) :
    dictGet m k = none ↔ k ∉ dictKeys m := by
  induction m with
  | nil => simp [dictGet, dictKeys]
  | cons kv rest ih =>
    obtain ⟨k0, w⟩ := kv
    by_cases h0 : k0 = k
    · subst h0
      simp [dictGet, dictKeys]
    · simp only [dictGet, if_neg h0, ih, dictKeys, List.map_cons, List.mem_cons]
      constructor
      · intro hk h1
        rcases h1 with h1 | h1
        · exact h0 h1.symm
        · exact hk h1
      · intro hk h1
        exact hk (Or.inr h1)

theorem dictGet_mem (m : List (PyStr × Nat)) (k : PyStr) (v : Nat)
    (h : dictGet m k = some v) : (k, v) ∈ m := by
  induction m with
  | nil => simp [dictGet] at h
  | cons kv rest ih =>
    obtain ⟨k0, w⟩ := kv
    by_cases h0 : k0 = k
    · subst h0
      simp [dictGet] at h
      simp [h]
    · simp [dictGet, h0] at h
      exact List.mem_cons_of_mem _ (ih h)

/-- A pair of the updated dict is an old pair or the new binding. -/
theorem mem_dictSet (m : List (PyStr × Nat)) (k : PyStr) (v : Nat) (kv : PyStr × Nat)
    (h : kv ∈ dictSet m k v) : kv ∈ m ∨ kv = (k, v) := by
  induction m with
  | nil =>
    simp only [dictSet] at h
    exact Or.inr (by simpa using h)
  | cons kv0 rest ih =>
    obtain ⟨k0, w0⟩ := kv0
    by_cases h0 : k0 = k
    · subst h0
      simp only [dictSet, if_pos rfl] at h
      rcases List.mem_cons.1 h with h1 | h1
      · exact Or.inr h1
      · exact Or.inl (List.mem_cons_of_mem _ h1)
    · simp only [dictSet, if_neg h0] at h
      rcases List.mem_cons.1 h with h1 | h1
      · exact Or.inl (by simp [h1])
      · rcases ih h1 with h2 | h2
        · exact Or.inl (List.mem_cons_of_mem _ h2)
        · exact Or.inr h2

/-- A key of the updated dict is an old key or the updated key. -/
theorem mem_dictKeys_dictSet (m : List (PyStr × Nat)) (k k0 : PyStr) (v : Nat)
    (h : k0 ∈ dictKeys (dictSet m k v)) : k0 ∈ dictKeys m ∨ k0 = k := by
  simp only [dictKeys, List.mem_map] at h ⊢
  obtain ⟨kv, hkv, hfst⟩ := h
  rcases mem_dictSet _ _ _ _ hkv with h1 | h1
  · exact Or.inl ⟨kv, h1, hfst⟩
  · subst h1
    exact Or.inr hfst.symm

theorem nodup_dictKeys_dictSet (m : List (PyStr × Nat)) (k : PyStr) (v : Nat)
    (h : (dictKeys m).Nodup) : (dictKeys (dictSet m k v)).Nodup := by
  induction m with
  | nil => simp [dictKeys, dictSet]
  | cons kv rest ih =>
    obtain ⟨k0, w⟩ := kv
    simp only [dictKeys, List.map_cons, List.nodup_cons] at h
    by_cases h0 : k0 = k
    · subst h0
      have hd : dictSet ((k0, w) :: rest) k0 v = (k0, v) :: rest := by simp [dictSet]
      rw [hd]
      simp only [dictKeys, List.map_cons, List.nodup_cons]
      exact ⟨h.1, h.2⟩
    · have hd : dictSet ((k0, w) :: rest) k v = (k0, w) :: dictSet rest k v := by
        simp [dictSet, h0]
      rw [hd]
      simp only [dictKeys, List.map_cons, List.nodup_cons]
      refine ⟨?_, by simpa [dictKeys] using ih (by simpa [dictKeys] using h.2)⟩
      intro hmem
      rcases mem_dictKeys_dictSet rest k k0 v (by simpa [dictKeys] using hmem) with h2 | h2
      · exact h.1 (by simpa [dictKeys] using h2)
      · exact h0 h2

theorem nodup_dictKeys_dictPop (m : List (PyStr × Nat)) (k : PyStr)
    (h : (dictKeys m).Nodup) : (dictKeys (dictPop m k)).Nodup := by
  rw [dictKeys_dictPop]
  exact h.erase k

theorem dictGet_dictPop_self (m : List (PyStr × Nat)) (k : PyStr)
    (h : (dictKeys m).Nodup) : dictGet (dictPop m k) k = none := by
  rw [dictGet_eq_none_iff, dictKeys_dictPop]
  intro hmem
  exact ((List.Nodup.mem_erase_iff h).1 hmem).1 rfl

/-! ### Basic lemmas about `get_pipeline`, `run_inference` and `generate_mp3` -/

/-- `get_pipeline` either returns the cached pipeline and leaves everything
unchanged, or constructs the pipeline with the next fresh id. -/
theorem get_pipeline_cases (w : Except PyErr Unit) (l : PyStr) (st : ServerState) :
    (∃ p, dictGet st.pipelines l = some p ∧ get_pipeline w l st = (p, st, [])) ∨
    (dictGet st.pipelines l = none ∧
      get_pipeline w l st =
        (st.nextId,
         { st with pipelines := dictSet st.pipelines l st.nextId, nextId := st.nextId + 1 },
         [Ev.createPipe l, Ev.warmupCall l])) := by
  unfold get_pipeline
  cases h : dictGet st.pipelines l with
  | some p => exact Or.inl ⟨p, rfl, rfl⟩
  | none => exact Or.inr ⟨rfl, rfl⟩

/-- The warmup outcome is swallowed: `get_pipeline` computes the same
pipeline, state and trace whatever the warmup pass did. -/
theorem get_pipeline_warmup_indep (w w' : Except PyErr Unit) (l : PyStr) (st : ServerState) :
    get_pipeline w l st = get_pipeline w' l st := by
  unfold get_pipeline
  cases dictGet st.pipelines l <;> rfl

theorem get_pipeline_recoveries (w : Except PyErr Unit) (l : PyStr) (st : ServerState) :
    ((get_pipeline w l st).2.1).nan_recoveries = st.nan_recoveries := by
  rcases get_pipeline_cases w l st with ⟨p, _, heq⟩ | ⟨_, heq⟩ <;> rw [heq]

theorem get_pipeline_nextId_le (w : Except PyErr Unit) (l : PyStr) (st : ServerState) :
    st.nextId ≤ ((get_pipeline w l st).2.1).nextId := by
  rcases get_pipeline_cases w l st with ⟨p, _, heq⟩ | ⟨_, heq⟩ <;> rw [heq] <;> simp

theorem get_pipeline_lookup (w : Except PyErr Unit) (l : PyStr) (st : ServerState) :
    dictGet ((get_pipeline w l st).2.1).pipelines l = some (get_pipeline w l st).1 := by
  rcases get_pipeline_cases w l st with ⟨p, hp, heq⟩ | ⟨hp, heq⟩ <;> rw [heq]
  · exact hp
  · exact dictGet_dictSet_self _ _ _

theorem get_pipeline_lookup_ne (w : Except PyErr Unit) (l k : PyStr) (st : ServerState)
    (h : k ≠ l) :
    dictGet ((get_pipeline w l st).2.1).pipelines k = dictGet st.pipelines k := by
  rcases get_pipeline_cases w l st with ⟨p, hp, heq⟩ | ⟨hp, heq⟩ <;> rw [heq]
  exact dictGet_dictSet_ne _ _ _ _ h

theorem get_pipeline_pipe_lt (w : Except PyErr Unit) (l : PyStr) (st : ServerState)
    (hwf : stWF st = true) :
    (get_pipeline w l st).1 < ((get_pipeline w l st).2.1).nextId := by
  rcases get_pipeline_cases w l st with ⟨p, hp, heq⟩ | ⟨hp, heq⟩ <;> rw [heq]
  · have hmem := dictGet_mem _ _ _ hp
    have := (List.all_eq_true.1 hwf) _ hmem
    simpa using this
  · simp

theorem get_pipeline_wf (w : Except PyErr Unit) (l : PyStr) (st : ServerState)
    (hwf : stWF st = true) : stWF ((get_pipeline w l st).2.1) = true := by
  rcases get_pipeline_cases w l st with ⟨p, hp, heq⟩ | ⟨hp, heq⟩ <;> rw [heq]
  · exact hwf
  · simp only [stWF, List.all_eq_true] at hwf ⊢
    intro kv hkv
    rcases mem_dictSet _ _ _ _ hkv with h1 | h1
    · have := hwf _ h1
      simp only [decide_eq_true_eq] at this ⊢
      omega
    · subst h1
      simp

theorem get_pipeline_nodup (w : Except PyErr Unit) (l : PyStr) (st : ServerState)
    (h : (dictKeys st.pipelines).Nodup) :
    (dictKeys ((get_pipeline w l st).2.1).pipelines).Nodup := by
  rcases get_pipeline_cases w l st with ⟨p, hp, heq⟩ | ⟨hp, heq⟩ <;> rw [heq]
  · exact h
  · exact nodup_dictKeys_dictSet _ _ _ h

theorem run_inference_ok (chunks : List (List Sample)) (h : chunks ≠ []) :
    run_inference chunks = .ok chunks.flatten := by
  simp [run_inference, h]

theorem run_inference_nil : run_inference [] = .error (.runtimeError (pyS "No audio generated")) := by
  simp [run_inference]

theorem ne_nil_of_hasNaN (l : List (List Sample)) (h : hasNaN l.flatten = true) : l ≠ [] := by
  rintro rfl
  simp [hasNaN] at h

/-! Branch-shape equations for `generate_mp3`, one per control path. -/

theorem gen_eq_lv1err (o : Oracle) (text : JVal) (c : Char) (rest : List Char)
    (st : ServerState) (e : PyErr) (h1 : o.loadVoice1 = .error e) :
    generate_mp3 o text (c :: rest) st = (.error e, (firstRound o c st).2.1, (firstRound o c st).2.2) := by
  simp only [generate_mp3, firstRound, h1]

theorem gen_eq_inf1nil (o : Oracle) (text : JVal) (c : Char) (rest : List Char)
    (st : ServerState) (h1 : o.loadVoice1 = .ok ()) (h2 : o.infer1 = []) :
    generate_mp3 o text (c :: rest) st =
      (.error (.runtimeError (pyS "No audio generated")), (firstRound o c st).2.1,
       (firstRound o c st).2.2 ++ [Ev.inferCall]) := by
  simp only [generate_mp3, firstRound, h1, h2, run_inference_nil]

theorem gen_eq_clean (o : Oracle) (text : JVal) (c : Char) (rest : List Char)
    (st : ServerState) (h1 : o.loadVoice1 = .ok ()) (h2 : o.infer1 ≠ [])
    (h3 : hasNaN o.infer1.flatten = false) :
    generate_mp3 o text (c :: rest) st =
      (audio_to_mp3 o o.infer1.flatten, (firstRound o c st).2.1,
       (firstRound o c st).2.2 ++ [Ev.inferCall, Ev.encodeCall]) := by
  simp only [generate_mp3, firstRound, h1, run_inference_ok o.infer1 h2, h3,
    Bool.not_false, if_true]

theorem gen_eq_lv2err (o : Oracle) (text : JVal) (c : Char) (rest : List Char)
    (st : ServerState) (e : PyErr) (h1 : o.loadVoice1 = .ok ())
    (h3 : hasNaN o.infer1.flatten = true) (h4 : o.loadVoice2 = .error e) :
    generate_mp3 o text (c :: rest) st =
      (.error e, (secondRound o c st).2.1,
       (firstRound o c st).2.2 ++ [Ev.inferCall, Ev.evict [c]] ++ (secondRound o c st).2.2) := by
  simp only [generate_mp3, firstRound, secondRound,
    run_inference_ok o.infer1 (ne_nil_of_hasNaN _ h3), h1, h3, h4, Bool.not_true]
  simp

theorem gen_eq_inf2nil (o : Oracle) (text : JVal) (c : Char) (rest : List Char)
    (st : ServerState) (h1 : o.loadVoice1 = .ok ())
    (h3 : hasNaN o.infer1.flatten = true) (h4 : o.loadVoice2 = .ok ())
    (h5 : o.infer2 = []) :
    generate_mp3 o text (c :: rest) st =
      (.error (.runtimeError (pyS "No audio generated")), (secondRound o c st).2.1,
       (firstRound o c st).2.2 ++ [Ev.inferCall, Ev.evict [c]] ++ (secondRound o c st).2.2 ++
         [Ev.inferCall]) := by
  simp only [generate_mp3, firstRound, secondRound,
    run_inference_ok o.infer1 (ne_nil_of_hasNaN _ h3), h1, h3, h4, h5, run_inference_nil,
    Bool.not_true]
  simp

theorem gen_eq_nan2 (o : Oracle) (text : JVal) (c : Char) (rest : List Char)
    (st : ServerState) (h1 : o.loadVoice1 = .ok ())
    (h3 : hasNaN o.infer1.flatten = true) (h4 : o.loadVoice2 = .ok ())
    (h5 : hasNaN o.infer2.flatten = true) :
    generate_mp3 o text (c :: rest) st =
      (.error (.runtimeError (pyS "NaN in audio output after pipeline reload")),
       (secondRound o c st).2.1,
       (firstRound o c st).2.2 ++ [Ev.inferCall, Ev.evict [c]] ++ (secondRound o c st).2.2 ++
         [Ev.inferCall]) := by
  simp only [generate_mp3, firstRound, secondRound,
    run_inference_ok o.infer1 (ne_nil_of_hasNaN _ h3),
    run_inference_ok o.infer2 (ne_nil_of_hasNaN _ h5), h1, h3, h4, h5, Bool.not_true]
  simp

theorem gen_eq_recover (o : Oracle) (text : JVal) (c : Char) (rest : List Char)
    (st : ServerState) (h1 : o.loadVoice1 = .ok ())
    (h3 : hasNaN o.infer1.flatten = true) (h4 : o.loadVoice2 = .ok ())
    (h5 : o.infer2 ≠ []) (h6 : hasNaN o.infer2.flatten = false) :
    generate_mp3 o text (c :: rest) st =
      (audio_to_mp3 o o.infer2.flatten,
       { (secondRound o c st).2.1 with
         nan_recoveries := ((secondRound o c st).2.1).nan_recoveries + 1 },
       (firstRound o c st).2.2 ++ [Ev.inferCall, Ev.evict [c]] ++ (secondRound o c st).2.2 ++
         [Ev.inferCall, Ev.encodeCall]) := by
  simp only [generate_mp3, firstRound, secondRound,
    run_inference_ok o.infer1 (ne_nil_of_hasNaN _ h3),
    run_inference_ok o.infer2 h5, h1, h3, h4, h6, Bool.not_true]
  simp

/-- Every event of a `get_pipeline` trace is a creation or a warmup for the
requested language code. -/
theorem get_pipeline_trace_sub (w : Except PyErr Unit) (l : PyStr) (st : ServerState) :
    ∀ e ∈ (get_pipeline w l st).2.2, e = Ev.createPipe l ∨ e = Ev.warmupCall l := by
  rcases get_pipeline_cases w l st with ⟨p, hp, heq⟩ | ⟨hp, heq⟩ <;> rw [heq] <;> simp

theorem contains_eq_false_of_not_mem (l : List PyStr) (k : PyStr) (h : k ∉ l) :
    l.contains k = false := by
  simpa using h

theorem replayOk_append (live : List PyStr) (xs ys : List Ev) :
    replayOk live (xs ++ ys) = (replayOk live xs && replayOk (replayLive live xs) ys) := by
  induction xs generalizing live with
  | nil => simp [replayOk, replayLive]
  | cons e tr ih =>
    cases e <;> simp [replayOk, replayLive, ih, Bool.and_assoc]

/-- `generate_mp3` control-flow summary: either no recovery was attempted
(the state is the one after the first `get_pipeline` round and the trace
extends that round's by at most one inference and one encoding), or the NaN
branch ran (the state is the one after the recreation round, plus one on the
recovery counter when the second attempt was clean, and the trace threads
first round, eviction, recreation round, and the second attempt). -/
theorem gen_shape (o : Oracle) (text : JVal) (c : Char) (rest : List Char) (st : ServerState) :
    ((generate_mp3 o text (c :: rest) st).2.1 = (firstRound o c st).2.1 ∧
     ((generate_mp3 o text (c :: rest) st).2.2 = (firstRound o c st).2.2 ∨
      (generate_mp3 o text (c :: rest) st).2.2 = (firstRound o c st).2.2 ++ [Ev.inferCall] ∨
      (generate_mp3 o text (c :: rest) st).2.2 =
        (firstRound o c st).2.2 ++ [Ev.inferCall, Ev.encodeCall])) ∨
    (((generate_mp3 o text (c :: rest) st).2.1 = (secondRound o c st).2.1 ∨
      (generate_mp3 o text (c :: rest) st).2.1 =
        { (secondRound o c st).2.1 with
          nan_recoveries := ((secondRound o c st).2.1).nan_recoveries + 1 }) ∧
     ((generate_mp3 o text (c :: rest) st).2.2 =
        (firstRound o c st).2.2 ++ [Ev.inferCall, Ev.evict [c]] ++ (secondRound o c st).2.2 ∨
      (generate_mp3 o text (c :: rest) st).2.2 =
        (firstRound o c st).2.2 ++ [Ev.inferCall, Ev.evict [c]] ++ (secondRound o c st).2.2 ++
          [Ev.inferCall] ∨
      (generate_mp3 o text (c :: rest) st).2.2 =
        (firstRound o c st).2.2 ++ [Ev.inferCall, Ev.evict [c]] ++ (secondRound o c st).2.2 ++
          [Ev.inferCall, Ev.encodeCall])) := by
  cases h1 : o.loadVoice1 with
  | error e =>
    rw [gen_eq_lv1err o text c rest st e h1]
    exact Or.inl ⟨rfl, Or.inl rfl⟩
  | ok u =>
    cases u
    cases h2 : o.infer1 with
    | nil =>
      rw [gen_eq_inf1nil o text c rest st h1 h2]
      exact Or.inl ⟨rfl, Or.inr (Or.inl rfl)⟩
    | cons x xs =>
      have h2' : o.infer1 ≠ [] := by rw [h2]; exact List.cons_ne_nil x xs
      cases h3 : hasNaN o.infer1.flatten with
      | false =>
        rw [gen_eq_clean o text c rest st h1 h2' h3]
        exact Or.inl ⟨rfl, Or.inr (Or.inr rfl)⟩
      | true =>
        cases h4 : o.loadVoice2 with
        | error e =>
          rw [gen_eq_lv2err o text c rest st e h1 h3 h4]
          exact Or.inr ⟨Or.inl rfl, Or.inl rfl⟩
        | ok u2 =>
          cases u2
          cases h5 : o.infer2 with
          | nil =>
            rw [gen_eq_inf2nil o text c rest st h1 h3 h4 h5]
            exact Or.inr ⟨Or.inl rfl, Or.inr (Or.inl rfl)⟩
          | cons y ys =>
            have h5' : o.infer2 ≠ [] := by rw [h5]; exact List.cons_ne_nil y ys
            cases h6 : hasNaN o.infer2.flatten with
            | true =>
              rw [gen_eq_nan2 o text c rest st h1 h3 h4 h6]
              exact Or.inr ⟨Or.inl rfl, Or.inr (Or.inl rfl)⟩
            | false =>
              rw [gen_eq_recover o text c rest st h1 h3 h4 h5' h6]
              exact Or.inr ⟨Or.inr rfl, Or.inr (Or.inr rfl)⟩

/-- C9: when `get_pipeline` constructs a new pipeline (the code is not yet
cached), the warmup synthesis pass is best-effort: a raised warmup exception
is swallowed (the result is the same whatever the warmup outcome), the
pipeline is constructed and warmup attempted, and the pipeline is cached and
returned ready for the real call. -/
theorem claim_C9 (w w' : Except PyErr Unit) (l : PyStr) (st : ServerState)
    (h : dictGet st.pipelines l = none) :
    get_pipeline w l st = get_pipeline w' l st ∧
    (get_pipeline w l st).2.2 = [Ev.createPipe l, Ev.warmupCall l] ∧
    dictGet ((get_pipeline w l st).2.1).pipelines l = some (get_pipeline w l st).1 := by
  refine ⟨get_pipeline_warmup_indep w w' l st, ?_, get_pipeline_lookup w l st⟩
  rcases get_pipeline_cases w l st with ⟨p, hp, heq⟩ | ⟨hp, heq⟩
  · rw [h] at hp
    cases hp
  · rw [heq]

/-- C9 witness: a failing warmup on the empty cache behaves like a clean
warmup and still caches and returns the new pipeline. -/
theorem claim_C9_witness :
    get_pipeline (.error (.runtimeError (pyS "warmup failed"))) (pyS "a") st0 =
      get_pipeline (.ok ()) (pyS "a") st0 ∧
    (get_pipeline (.error (.runtimeError (pyS "warmup failed"))) (pyS "a") st0).2.2 =
      [Ev.createPipe (pyS "a"), Ev.warmupCall (pyS "a")] ∧
    dictGet ((get_pipeline (.error (.runtimeError (pyS "warmup failed"))) (pyS "a") st0).2.1).pipelines
        (pyS "a") =
      some (get_pipeline (.error (.runtimeError (pyS "warmup failed"))) (pyS "a") st0).1 :=
  claim_C9 (.error (.runtimeError (pyS "warmup failed"))) (.ok ()) (pyS "a") st0 (by decide)

/-- C7: a `/tts` request whose declared `Content-Length` parses to a value
above `MAX_BODY_SIZE` is answered 413 with a JSON error, the state is
untouched and the trace is empty: in particular the body is never read. -/
theorem claim_C7 (o : Oracle) (req : Req) (st : ServerState) (n : Int)
    (hpath : req.path = pyS "/tts")
    (hlen : contentLengthOf req.contentLength = .ok n)
    (hbig : n > (MAX_BODY_SIZE : Int)) :
    do_POST o req st = (.json 413 (.errorMsg (pyS "Request too large")), st, []) ∧
    Ev.readBody ∉ (do_POST o req st).2.2 := by
  have heq : do_POST o req st = (.json 413 (.errorMsg (pyS "Request too large")), st, []) := by
    unfold do_POST
    rw [if_pos hpath]
    simp only [hlen]
    rw [if_pos hbig]
  exact ⟨heq, by rw [heq]; simp⟩

/-- C7 witness: a declared length of 1000001 yields the 413 response with no
body read. -/
theorem claim_C7_witness :
    do_POST oBase ⟨pyS "/tts", some (pyS "1000001"), []⟩ st0 =
      (.json 413 (.errorMsg (pyS "Request too large")), st0, []) ∧
    Ev.readBody ∉ (do_POST oBase ⟨pyS "/tts", some (pyS "1000001"), []⟩ st0).2.2 :=
  claim_C7 oBase ⟨pyS "/tts", some (pyS "1000001"), []⟩ st0 1000001 rfl rfl (by decide)

/-- C4 counterexample: for the accepted voice `af_heart` the pipeline cache
ends up keyed by the one-character string `a`, which is not the first
character pair `af`. -/
theorem claim_C4_counterexample :
    dictKeys ((generate_mp3 oBase (JVal.jstr (pyS "hi")) (pyS "af_heart") st0).2.1).pipelines
        = [pyS "a"] ∧
    pyS "a" ≠ pyS "af" := by
  exact ⟨by decide, by decide⟩

/-- C4 (amended): the language code used to select and key the pipeline
cache is the first character of the voice identifier: every cache creation
or eviction performed by `generate_mp3` is keyed by the one-character string
of the voice's first character, and cache entries under every other key are
left untouched. -/
theorem claim_C4 (o : Oracle) (text : JVal) (c : Char) (rest : List Char) (st : ServerState) :
    (∀ k, (Ev.createPipe k ∈ (generate_mp3 o text (c :: rest) st).2.2 ∨
           Ev.evict k ∈ (generate_mp3 o text (c :: rest) st).2.2) → k = [c]) ∧
    (∀ k, k ≠ [c] →
      dictGet ((generate_mp3 o text (c :: rest) st).2.1).pipelines k = dictGet st.pipelines k) := by
  have hfr : ∀ e ∈ (firstRound o c st).2.2, e = Ev.createPipe [c] ∨ e = Ev.warmupCall [c] :=
    get_pipeline_trace_sub o.warmup1 [c] st
  have hsr : ∀ e ∈ (secondRound o c st).2.2, e = Ev.createPipe [c] ∨ e = Ev.warmupCall [c] :=
    get_pipeline_trace_sub o.warmup2 [c] _
  have hfrk : ∀ k, k ≠ [c] →
      dictGet ((firstRound o c st).2.1).pipelines k = dictGet st.pipelines k :=
    fun k hk => get_pipeline_lookup_ne o.warmup1 [c] k st hk
  have hsrk : ∀ k, k ≠ [c] →
      dictGet ((secondRound o c st).2.1).pipelines k = dictGet st.pipelines k := by
    intro k hk
    calc dictGet ((secondRound o c st).2.1).pipelines k
        = dictGet (dictPop ((firstRound o c st).2.1).pipelines [c]) k :=
          get_pipeline_lookup_ne o.warmup2 [c] k _ hk
      _ = dictGet ((firstRound o c st).2.1).pipelines k := dictGet_dictPop_ne _ _ _ hk
      _ = dictGet st.pipelines k := hfrk k hk
  have happ : ∀ (tr1 tr2 : List Ev),
      (∀ e ∈ tr1, e = Ev.createPipe [c] ∨ e = Ev.warmupCall [c] ∨ e = Ev.evict [c] ∨
        e = Ev.inferCall ∨ e = Ev.encodeCall) →
      (∀ e ∈ tr2, e = Ev.createPipe [c] ∨ e = Ev.warmupCall [c] ∨ e = Ev.evict [c] ∨
        e = Ev.inferCall ∨ e = Ev.encodeCall) →
      ∀ e ∈ tr1 ++ tr2, e = Ev.createPipe [c] ∨ e = Ev.warmupCall [c] ∨ e = Ev.evict [c] ∨
        e = Ev.inferCall ∨ e = Ev.encodeCall := by
    intro tr1 tr2 ha hb e he
    rcases List.mem_append.1 he with h | h
    · exact ha _ h
    · exact hb _ h
  have hfr5 : ∀ e ∈ (firstRound o c st).2.2, e = Ev.createPipe [c] ∨ e = Ev.warmupCall [c] ∨
      e = Ev.evict [c] ∨ e = Ev.inferCall ∨ e = Ev.encodeCall := by
    intro e he
    rcases hfr e he with h | h <;> simp [h]
  have hsr5 : ∀ e ∈ (secondRound o c st).2.2, e = Ev.createPipe [c] ∨ e = Ev.warmupCall [c] ∨
      e = Ev.evict [c] ∨ e = Ev.inferCall ∨ e = Ev.encodeCall := by
    intro e he
    rcases hsr e he with h | h <;> simp [h]
  have hatoms : ∀ (l : List Ev), (∀ e ∈ l, e = Ev.evict [c] ∨ e = Ev.inferCall ∨
      e = Ev.encodeCall) →
      ∀ e ∈ l, e = Ev.createPipe [c] ∨ e = Ev.warmupCall [c] ∨ e = Ev.evict [c] ∨
        e = Ev.inferCall ∨ e = Ev.encodeCall := by
    intro l hl e he
    rcases hl e he with h | h | h <;> simp [h]
  have hALL : ∀ e ∈ (generate_mp3 o text (c :: rest) st).2.2,
      e = Ev.createPipe [c] ∨ e = Ev.warmupCall [c] ∨ e = Ev.evict [c] ∨
      e = Ev.inferCall ∨ e = Ev.encodeCall := by
    rcases gen_shape o text c rest st with ⟨_, htr⟩ | ⟨_, htr⟩ <;>
      rcases htr with htr | htr | htr <;> rw [htr]
    · exact hfr5
    · exact happ _ _ hfr5 (hatoms _ (by intro e he; simp at he; simp [he]))
    · exact happ _ _ hfr5 (hatoms _ (by intro e he; simp at he; rcases he with he | he <;> simp [he]))
    · exact happ _ _ (happ _ _ hfr5
        (hatoms _ (by intro e he; simp at he; rcases he with he | he <;> simp [he]))) hsr5
    · exact happ _ _ (happ _ _ (happ _ _ hfr5
        (hatoms _ (by intro e he; simp at he; rcases he with he | he <;> simp [he]))) hsr5)
        (hatoms _ (by intro e he; simp at he; simp [he]))
    · exact happ _ _ (happ _ _ (happ _ _ hfr5
        (hatoms _ (by intro e he; simp at he; rcases he with he | he <;> simp [he]))) hsr5)
        (hatoms _ (by intro e he; simp at he; rcases he with he | he <;> simp [he]))
  constructor
  · intro k hk
    rcases hk with hk | hk
    · rcases hALL _ hk with h | h | h | h | h <;> injection h <;> assumption
    · rcases hALL _ hk with h | h | h | h | h <;> injection h <;> assumption
  · intro k hk
    rcases gen_shape o text c rest st with ⟨hst, _⟩ | ⟨hst, _⟩
    · rw [hst]
      exact hfrk k hk
    · rcases hst with hst | hst <;> rw [hst]
      · exact hsrk k hk
      · exact hsrk k hk

theorem countInfer_get_pipeline (w : Except PyErr Unit) (l : PyStr) (st : ServerState) :
    countInfer (get_pipeline w l st).2.2 = 0 := by
  rcases get_pipeline_cases w l st with ⟨p, _, heq⟩ | ⟨_, heq⟩ <;> rw [heq] <;>
    simp [countInfer]

theorem evict_not_mem_get_pipeline (w : Except PyErr Unit) (l k : PyStr) (st : ServerState) :
    Ev.evict k ∉ (get_pipeline w l st).2.2 := by
  intro hmem
  rcases get_pipeline_trace_sub w l st _ hmem with h | h <;> cases h

theorem secondRound_recoveries (o : Oracle) (c : Char) (st : ServerState) :
    ((secondRound o c st).2.1).nan_recoveries = st.nan_recoveries := by
  unfold secondRound
  rw [get_pipeline_recoveries]
  exact get_pipeline_recoveries o.warmup1 [c] st

/-- After a NaN eviction the recreation round always constructs: it returns
the first round's fresh-id counter as the new pipeline and caches it. -/
theorem secondRound_new (o : Oracle) (c : Char) (st : ServerState)
    (hnd : (dictKeys st.pipelines).Nodup) :
    (secondRound o c st).1 = ((firstRound o c st).2.1).nextId ∧
    dictGet ((secondRound o c st).2.1).pipelines [c] = some (secondRound o c st).1 := by
  have hnone : dictGet (dictPop ((firstRound o c st).2.1).pipelines [c]) [c] = none :=
    dictGet_dictPop_self _ _ (get_pipeline_nodup o.warmup1 [c] st hnd)
  constructor
  · unfold secondRound
    rcases get_pipeline_cases o.warmup2 [c]
        { (firstRound o c st).2.1 with
          pipelines := dictPop ((firstRound o c st).2.1).pipelines [c] } with
      ⟨p, hp, heq⟩ | ⟨hp, heq⟩
    · have hp' : dictGet (dictPop ((firstRound o c st).2.1).pipelines [c]) [c] = some p := by
        simpa using hp
      rw [hnone] at hp'
      cases hp'
    · rw [heq]
  · unfold secondRound
    exact get_pipeline_lookup o.warmup2 [c] _

/-- C4 witness: a key other than the first character's one-character string
is untouched by a run on the voice `af_heart`. -/
theorem claim_C4_witness :
    dictGet ((generate_mp3 oBase (JVal.jstr (pyS "hi"))
        ('a' :: pyS "f_heart") st0).2.1).pipelines (pyS "zz") =
      dictGet st0.pipelines (pyS "zz") :=
  (claim_C4 oBase (JVal.jstr (pyS "hi")) 'a' (pyS "f_heart") st0).2 (pyS "zz") (by decide)

/-- C1 counterexample: an infinity is a non-finite sample, yet with an
infinity (and no NaN) in the first output and a clean second attempt
available, only one inference call occurs, nothing is evicted and the
recovery counter stays 0: detection uses `np.isnan`, not finiteness. -/
theorem claim_C1_counterexample :
    hasNonFinite oInfFirst.infer1.flatten = true ∧
    hasNaN oInfFirst.infer2.flatten = false ∧
    countInfer (generate_mp3 oInfFirst (JVal.jstr (pyS "hi")) (pyS "af_heart") st0).2.2 = 1 ∧
    Ev.evict (pyS "a") ∉ (generate_mp3 oInfFirst (JVal.jstr (pyS "hi")) (pyS "af_heart") st0).2.2 ∧
    ((generate_mp3 oInfFirst (JVal.jstr (pyS "hi")) (pyS "af_heart") st0).2.1).nan_recoveries
      = 0 := by
  decide

/-- C1 (amended): on a synthesis whose first output contains a NaN sample
and whose second attempt's output is clean, exactly two inference calls
occur, the cached pipeline for the voice's (one-character) language code is
evicted and replaced by a newly constructed one, and the recovery counter
increments by exactly 1. -/
theorem claim_C1 (o : Oracle) (text : JVal) (c : Char) (rest : List Char) (st : ServerState)
    (hnd : (dictKeys st.pipelines).Nodup) (hwf : stWF st = true)
    (hl1 : o.loadVoice1 = .ok ()) (hl2 : o.loadVoice2 = .ok ())
    (hn1 : hasNaN o.infer1.flatten = true)
    (h2ne : o.infer2 ≠ []) (hn2 : hasNaN o.infer2.flatten = false) :
    countInfer (generate_mp3 o text (c :: rest) st).2.2 = 2 ∧
    Ev.evict [c] ∈ (generate_mp3 o text (c :: rest) st).2.2 ∧
    ((generate_mp3 o text (c :: rest) st).2.1).nan_recoveries = st.nan_recoveries + 1 ∧
    ∃ p2, dictGet ((generate_mp3 o text (c :: rest) st).2.1).pipelines [c] = some p2 ∧
      st.nextId ≤ p2 ∧ (firstRound o c st).1 ≠ p2 := by
  rw [gen_eq_recover o text c rest st hl1 hn1 hl2 h2ne hn2]
  refine ⟨?_, ?_, ?_, ?_⟩
  · have ha : countInfer [Ev.inferCall, Ev.evict [c]] = 1 := rfl
    have hb : countInfer [Ev.inferCall, Ev.encodeCall] = 1 := rfl
    have c1 : countInfer (firstRound o c st).2.2 = 0 := countInfer_get_pipeline o.warmup1 [c] st
    have c2 : countInfer (secondRound o c st).2.2 = 0 := countInfer_get_pipeline o.warmup2 [c] _
    simp only [show ∀ xs ys : List Ev, countInfer (xs ++ ys) = countInfer xs + countInfer ys from
      fun xs ys => List.countP_append _ _ _, ha, hb, c1, c2]
  · simp [List.mem_append]
  · simp [secondRound_recoveries o c st]
  · refine ⟨(secondRound o c st).1, ?_, ?_, ?_⟩
    · simpa using (secondRound_new o c st hnd).2
    · rw [(secondRound_new o c st hnd).1]
      exact get_pipeline_nextId_le o.warmup1 [c] st
    · rw [(secondRound_new o c st hnd).1]
      exact Nat.ne_of_lt (get_pipeline_pipe_lt o.warmup1 [c] st hwf)

/-- C1 witness: concrete NaN-then-clean run on the empty state. -/
theorem claim_C1_witness :
    countInfer (generate_mp3 oNaNClean (JVal.jstr (pyS "hi")) ('a' :: pyS "f_heart") st0).2.2
        = 2 ∧
    Ev.evict [Char.ofNat 97] ∈
      (generate_mp3 oNaNClean (JVal.jstr (pyS "hi")) ('a' :: pyS "f_heart") st0).2.2 ∧
    ((generate_mp3 oNaNClean (JVal.jstr (pyS "hi")) ('a' :: pyS "f_heart") st0).2.1).nan_recoveries
        = st0.nan_recoveries + 1 ∧
    ∃ p2, dictGet ((generate_mp3 oNaNClean (JVal.jstr (pyS "hi"))
        ('a' :: pyS "f_heart") st0).2.1).pipelines [Char.ofNat 97] = some p2 ∧
      st0.nextId ≤ p2 ∧ (firstRound oNaNClean 'a' st0).1 ≠ p2 :=
  claim_C1 oNaNClean (JVal.jstr (pyS "hi")) 'a' (pyS "f_heart") st0 (by decide) (by decide)
    rfl rfl (by decide) (by decide) (by decide)

/-- C3 counterexample: a first output containing an infinity (a non-finite
value) but no NaN does not trigger recovery: one inference call, no
eviction, counter unchanged, straight to encoding. -/
theorem claim_C3_counterexample :
    hasNonFinite oInfFirst.infer1.flatten = true ∧
    Ev.evict (pyS "a") ∉ (generate_mp3 oInfFirst (JVal.jstr (pyS "ok")) (pyS "af_alloy") st0).2.2 ∧
    countInfer (generate_mp3 oInfFirst (JVal.jstr (pyS "ok")) (pyS "af_alloy") st0).2.2 = 1 ∧
    Ev.encodeCall ∈ (generate_mp3 oInfFirst (JVal.jstr (pyS "ok")) (pyS "af_alloy") st0).2.2 := by
  decide

/-- C3 (amended): recovery (eviction of the cached pipeline followed by a
second inference attempt) is triggered if and only if the first output
contains a NaN; when the first output is NaN-free, exactly one inference
call occurs, the result proceeds directly to encoding, and the recovery
counter is unchanged. -/
theorem claim_C3 (o : Oracle) (text : JVal) (c : Char) (rest : List Char) (st : ServerState)
    (hl1 : o.loadVoice1 = .ok ()) (hl2 : o.loadVoice2 = .ok ()) (h1ne : o.infer1 ≠ []) :
    (Ev.evict [c] ∈ (generate_mp3 o text (c :: rest) st).2.2 ↔ hasNaN o.infer1.flatten = true) ∧
    (hasNaN o.infer1.flatten = false →
      countInfer (generate_mp3 o text (c :: rest) st).2.2 = 1 ∧
      Ev.encodeCall ∈ (generate_mp3 o text (c :: rest) st).2.2 ∧
      ((generate_mp3 o text (c :: rest) st).2.1).nan_recoveries = st.nan_recoveries) := by
  cases h3 : hasNaN o.infer1.flatten with
  | false =>
    rw [gen_eq_clean o text c rest st hl1 h1ne h3]
    refine ⟨?_, ?_⟩
    · simp only [Bool.false_eq_true, iff_false]
      intro hmem
      simp only [List.mem_append, List.mem_cons, List.not_mem_nil, or_false,
        reduceCtorEq] at hmem
      exact evict_not_mem_get_pipeline o.warmup1 [c] [c] st (by simpa [firstRound] using hmem)
    · intro _
      refine ⟨?_, by simp, ?_⟩
      · have ha : countInfer [Ev.inferCall, Ev.encodeCall] = 1 := rfl
        have c1 : countInfer (firstRound o c st).2.2 = 0 :=
          countInfer_get_pipeline o.warmup1 [c] st
        simp only [show ∀ xs ys : List Ev,
          countInfer (xs ++ ys) = countInfer xs + countInfer ys from
          fun xs ys => List.countP_append _ _ _, ha, c1]
      · simp [firstRound, get_pipeline_recoveries]
  | true =>
    have hmem : Ev.evict [c] ∈ (generate_mp3 o text (c :: rest) st).2.2 := by
      cases h5 : o.infer2 with
      | nil =>
        rw [gen_eq_inf2nil o text c rest st hl1 h3 hl2 h5]
        simp [List.mem_append]
      | cons y ys =>
        have h5' : o.infer2 ≠ [] := by rw [h5]; exact List.cons_ne_nil y ys
        cases h6 : hasNaN o.infer2.flatten with
        | true =>
          rw [gen_eq_nan2 o text c rest st hl1 h3 hl2 h6]
          simp [List.mem_append]
        | false =>
          rw [gen_eq_recover o text c rest st hl1 h3 hl2 h5' h6]
          simp [List.mem_append]
    refine ⟨⟨fun _ => rfl, fun _ => hmem⟩, ?_⟩
    intro hh
    exact Bool.noConfusion hh

/-- C3 witness: a clean first output on the baseline oracle gives one
inference call, no eviction, direct encoding, unchanged counter. -/
theorem claim_C3_witness :
    (Ev.evict [Char.ofNat 97] ∈
        (generate_mp3 oBase (JVal.jstr (pyS "hi")) ('a' :: pyS "f_heart") st0).2.2 ↔
      hasNaN oBase.infer1.flatten = true) ∧
    (hasNaN oBase.infer1.flatten = false →
      countInfer (generate_mp3 oBase (JVal.jstr (pyS "hi")) ('a' :: pyS "f_heart") st0).2.2 = 1 ∧
      Ev.encodeCall ∈ (generate_mp3 oBase (JVal.jstr (pyS "hi")) ('a' :: pyS "f_heart") st0).2.2 ∧
      ((generate_mp3 oBase (JVal.jstr (pyS "hi"))
          ('a' :: pyS "f_heart") st0).2.1).nan_recoveries = st0.nan_recoveries) :=
  claim_C3 oBase (JVal.jstr (pyS "hi")) 'a' (pyS "f_heart") st0 rfl rfl (by decide)

/-- An accepted voice string is nonempty. -/
theorem reMatchVoice_ne_nil (v : PyStr) (h : reMatchVoice v = true) : v ≠ [] := by
  rintro rfl
  simp [reMatchVoice, voiceCore] at h

/-- Reduction of `do_POST` on a well-formed `/tts` request: after the
envelope and validation steps pass, the handler calls `generate_mp3` and
maps its outcome to a 200 audio response or a 500 JSON error. -/
theorem do_POST_tts_valid (o : Oracle) (req : Req) (st : ServerState) (n : Int)
    (body : TtsBody) (t v : PyStr)
    (hpath : req.path = pyS "/tts")
    (hlen : contentLengthOf req.contentLength = .ok n)
    (hsize : ¬ n > (MAX_BODY_SIZE : Int))
    (hdec : o.decodeJson (pyRead req.rawBody n) = .ok body)
    (htext : body.text = some (.jstr t)) (htne : t ≠ [])
    (htlen : ¬ t.length > MAX_TEXT_LENGTH)
    (hvoice : body.voice = some (.jstr v)) (hv : reMatchVoice v = true) :
    do_POST o req st =
      ((match (generate_mp3 o (JVal.jstr t) v st).1 with
        | .ok mp3 => Resp.audio mp3
        | .error e => Resp.json 500 (.errorMsg (errMsg e))),
       (generate_mp3 o (JVal.jstr t) v st).2.1,
       Ev.readBody :: (generate_mp3 o (JVal.jstr t) v st).2.2) := by
  unfold do_POST
  rw [if_pos hpath]
  simp only [hlen]
  rw [if_neg hsize]
  simp only [hdec, htext, hvoice, Option.getD_some]
  have htr : truthy (JVal.jstr t) = true := by simp [truthy, htne]
  simp only [htr, Bool.not_true]
  rw [if_neg (by simp)]
  simp only [pyLen]
  rw [if_neg htlen]
  simp only [hv, Bool.not_true]
  rw [if_neg (by simp)]
  rcases hgen : generate_mp3 o (JVal.jstr t) v st with ⟨res, st', ev⟩
  cases res <;> simp

/-- C2 counterexample: a request whose synthesis outputs contain a
non-finite value (an infinity) on both attempts does not fail: it is
answered 200 after a single inference call, because detection only looks
for NaN. -/
theorem claim_C2_counterexample :
    hasNonFinite oC2ce.infer1.flatten = true ∧
    hasNonFinite oC2ce.infer2.flatten = true ∧
    (do_POST oC2ce reqTts st0).1.status = 200 ∧
    countInfer (do_POST oC2ce reqTts st0).2.2 = 1 ∧
    ((do_POST oC2ce reqTts st0).2.1).nan_recoveries = st0.nan_recoveries := by
  decide

/-- C2 (amended): a `/tts` request whose synthesis output contains a NaN on
both the first and the second attempt fails with the 500 JSON reload-failure
error, exactly two inference calls occur (no third attempt), and the
recovery counter is unchanged. -/
theorem claim_C2 (o : Oracle) (req : Req) (st : ServerState) (n : Int)
    (body : TtsBody) (t v : PyStr)
    (hpath : req.path = pyS "/tts")
    (hlen : contentLengthOf req.contentLength = .ok n)
    (hsize : ¬ n > (MAX_BODY_SIZE : Int))
    (hdec : o.decodeJson (pyRead req.rawBody n) = .ok body)
    (htext : body.text = some (.jstr t)) (htne : t ≠ [])
    (htlen : ¬ t.length > MAX_TEXT_LENGTH)
    (hvoice : body.voice = some (.jstr v)) (hv : reMatchVoice v = true)
    (hl1 : o.loadVoice1 = .ok ()) (hl2 : o.loadVoice2 = .ok ())
    (hn1 : hasNaN o.infer1.flatten = true) (hn2 : hasNaN o.infer2.flatten = true) :
    (do_POST o req st).1 =
      .json 500 (.errorMsg (pyS "NaN in audio output after pipeline reload")) ∧
    countInfer (do_POST o req st).2.2 = 2 ∧
    ((do_POST o req st).2.1).nan_recoveries = st.nan_recoveries := by
  obtain ⟨c, rest, rfl⟩ := List.exists_cons_of_ne_nil (reMatchVoice_ne_nil v hv)
  rw [do_POST_tts_valid o req st n body t (c :: rest) hpath hlen hsize hdec htext htne htlen
    hvoice hv]
  rw [gen_eq_nan2 o (JVal.jstr t) c rest st hl1 hn1 hl2 hn2]
  refine ⟨rfl, ?_, ?_⟩
  · have hr : ∀ l, countInfer (Ev.readBody :: l) = countInfer l := by
      intro l
      simp [countInfer, List.countP_cons]
    have ha : countInfer [Ev.inferCall, Ev.evict [c]] = 1 := rfl
    have hb : countInfer [Ev.inferCall] = 1 := rfl
    have c1 : countInfer (firstRound o c st).2.2 = 0 := countInfer_get_pipeline o.warmup1 [c] st
    have c2 : countInfer (secondRound o c st).2.2 = 0 := countInfer_get_pipeline o.warmup2 [c] _
    simp only [hr, show ∀ xs ys : List Ev,
      countInfer (xs ++ ys) = countInfer xs + countInfer ys from
      fun xs ys => List.countP_append _ _ _, ha, hb, c1, c2]
  · exact secondRound_recoveries o c st

/-- C2 witness: concrete NaN-on-both-attempts request on the empty state. -/
theorem claim_C2_witness :
    (do_POST oC2w reqTts st0).1 =
      .json 500 (.errorMsg (pyS "NaN in audio output after pipeline reload")) ∧
    countInfer (do_POST oC2w reqTts st0).2.2 = 2 ∧
    ((do_POST oC2w reqTts st0).2.1).nan_recoveries = st0.nan_recoveries :=
  claim_C2 oC2w reqTts st0 50 bodyHeart (pyS "hi") (pyS "af_heart") rfl rfl (by decide) rfl
    rfl (by decide) (by decide) rfl (by decide) rfl rfl (by decide) (by decide)

/-- C6 counterexample: the voice string "af_heart\n" does not match the
anchored pattern of the spec, yet the request is accepted (Python's `$` also
matches just before one trailing newline): synthesis runs and the response
is 200, not 400. -/
theorem claim_C6_counterexample :
    anchoredVoiceMatch (pyS "af_heart\n") = false ∧
    reMatchVoice (pyS "af_heart\n") = true ∧
    (do_POST oC6ce reqTts st0).1.status = 200 ∧
    Ev.inferCall ∈ (do_POST oC6ce reqTts st0).2.2 := by
  decide

/-- C6 (amended): a `/tts` request with valid text whose voice string fails
Python's `re.match` of the pattern (under which `$` also accepts one
trailing newline) is answered 400 with the invalid-voice JSON error, the
state is untouched, and no synthesis (in particular no inference) occurs. -/
theorem claim_C6 (o : Oracle) (req : Req) (st : ServerState) (n : Int)
    (body : TtsBody) (t v : PyStr)
    (hpath : req.path = pyS "/tts")
    (hlen : contentLengthOf req.contentLength = .ok n)
    (hsize : ¬ n > (MAX_BODY_SIZE : Int))
    (hdec : o.decodeJson (pyRead req.rawBody n) = .ok body)
    (htext : body.text = some (.jstr t)) (htne : t ≠ [])
    (htlen : ¬ t.length > MAX_TEXT_LENGTH)
    (hvoice : body.voice = some (.jstr v)) (hv : reMatchVoice v = false) :
    do_POST o req st =
      (.json 400 (.errorMsg (pyS "Invalid voice name: " ++ v)), st, [Ev.readBody]) ∧
    Ev.inferCall ∉ (do_POST o req st).2.2 := by
  have heq : do_POST o req st =
      (.json 400 (.errorMsg (pyS "Invalid voice name: " ++ v)), st, [Ev.readBody]) := by
    unfold do_POST
    rw [if_pos hpath]
    simp only [hlen]
    rw [if_neg hsize]
    simp only [hdec, htext, hvoice, Option.getD_some]
    have htr : truthy (JVal.jstr t) = true := by simp [truthy, htne]
    simp only [htr, Bool.not_true]
    rw [if_neg (by simp)]
    simp only [pyLen]
    rw [if_neg htlen]
    simp only [hv, Bool.not_false]
    simp
  refine ⟨heq, ?_⟩
  rw [heq]
  simp

/-- C6 witness: the clearly invalid voice "BAD" is rejected with 400 and no
synthesis. -/
theorem claim_C6_witness :
    do_POST oC6w reqTts st0 =
      (.json 400 (.errorMsg (pyS "Invalid voice name: " ++ pyS "BAD")), st0, [Ev.readBody]) ∧
    Ev.inferCall ∉ (do_POST oC6w reqTts st0).2.2 :=
  claim_C6 oC6w reqTts st0 50 ⟨some (.jstr (pyS "hi")), some (.jstr (pyS "BAD"))⟩
    (pyS "hi") (pyS "BAD") rfl rfl (by decide) rfl rfl (by decide) (by decide) rfl (by decide)

/-- C10 counterexample: a body mapping `text` to a truthy non-string (a
nonempty JSON array) does not produce a 500: `len` succeeds on a list, the
validation passes, and with a clean synthesis the request is answered
200. -/
theorem claim_C10_counterexample :
    truthy (JVal.jarr [JVal.jstr (pyS "hi")]) = true ∧
    (do_POST oC10ce reqTts st0).1.status = 200 := by
  decide

/-- C10 (amended): a `/tts` request whose body maps `text` to a truthy
number or boolean, or (with valid string text) maps `voice` to a truthy
non-string value, is answered 500, not 400: the `TypeError` raised by `len`
or by the regex match inside the validation steps propagates to the
outermost catch-all.  (A truthy container as `text` passes `len` and is not
covered.) -/
theorem claim_C10 (o : Oracle) (req : Req) (st : ServerState) (n : Int) (body : TtsBody)
    (hpath : req.path = pyS "/tts")
    (hlen : contentLengthOf req.contentLength = .ok n)
    (hsize : ¬ n > (MAX_BODY_SIZE : Int))
    (hdec : o.decodeJson (pyRead req.rawBody n) = .ok body)
    (hmain : (∃ m : Int, body.text = some (.jnum m) ∧ m ≠ 0) ∨
      body.text = some (.jbool true) ∨
      (∃ t w, body.text = some (.jstr t) ∧ t ≠ [] ∧ ¬ t.length > MAX_TEXT_LENGTH ∧
        body.voice = some w ∧ truthy w = true ∧ typeName w ≠ pyS "str")) :
    ∃ msg, do_POST o req st = (.json 500 (.errorMsg msg), st, [Ev.readBody]) := by
  unfold do_POST
  rw [if_pos hpath]
  simp only [hlen]
  rw [if_neg hsize]
  simp only [hdec]
  rcases hmain with ⟨m, htext, hm⟩ | htext | ⟨t, w, htext, htne, htlen, hvoice, htru, hstr⟩
  · simp only [htext, Option.getD_some]
    have htr : truthy (JVal.jnum m) = true := by simp [truthy, hm]
    simp only [htr, Bool.not_true]
    rw [if_neg (by simp)]
    simp only [pyLen]
    exact ⟨_, rfl⟩
  · simp only [htext, Option.getD_some]
    have htr : truthy (JVal.jbool true) = true := by simp [truthy]
    simp only [htr, Bool.not_true]
    rw [if_neg (by simp)]
    simp only [pyLen]
    exact ⟨_, rfl⟩
  · simp only [htext, hvoice, Option.getD_some]
    have htr : truthy (JVal.jstr t) = true := by simp [truthy, htne]
    simp only [htr, Bool.not_true]
    rw [if_neg (by simp)]
    simp only [pyLen]
    rw [if_neg htlen]
    cases w with
    | jstr s => exact absurd rfl hstr
    | jnum m2 => exact ⟨_, rfl⟩
    | jbool b => exact ⟨_, rfl⟩
    | jnull => simp [truthy] at htru
    | jarr xs => exact ⟨_, rfl⟩

/-- C10 witness: `text` mapped to the number 5 yields a 500 JSON error. -/
theorem claim_C10_witness :
    ∃ msg, do_POST oC10w reqTts st0 = (.json 500 (.errorMsg msg), st0, [Ev.readBody]) :=
  claim_C10 oC10w reqTts st0 50 ⟨some (.jnum 5), none⟩ rfl rfl (by decide) rfl
    (Or.inl ⟨5, rfl, by decide⟩)

/-! ### Ordering and sorting lemmas for the `/voices` listing -/

theorem pyStrLe_total : ∀ a b : PyStr, pyStrLe a b = true ∨ pyStrLe b a = true := by
  intro a
  induction a with
  | nil =>
    intro b
    left
    cases b <;> simp [pyStrLe]
  | cons x xs ih =>
    intro b
    cases b with
    | nil =>
      right
      simp [pyStrLe]
    | cons y ys =>
      by_cases hxy : x = y
      · subst hxy
        rcases ih ys with h | h
        · left
          simp [pyStrLe, h]
        · right
          simp [pyStrLe, h]
      · have hyx : y ≠ x := fun hh => hxy hh.symm
        rcases lt_or_gt_of_ne hxy with h | h
        · left
          simp [pyStrLe, hxy, h]
        · right
          simp [pyStrLe, hyx, h]

theorem pyStrLe_trans : ∀ a b c : PyStr, pyStrLe a b = true → pyStrLe b c = true →
    pyStrLe a c = true := by
  intro a
  induction a with
  | nil =>
    intro b c _ _
    simp [pyStrLe]
  | cons x xs ih =>
    intro b c hab hbc
    cases b with
    | nil => simp [pyStrLe] at hab
    | cons y ys =>
      cases c with
      | nil => simp [pyStrLe] at hbc
      | cons z zs =>
        by_cases hxy : x = y
        · subst hxy
          simp only [pyStrLe, if_pos rfl] at hab
          by_cases hyz : x = z
          · subst hyz
            simp only [pyStrLe, if_pos rfl] at hbc ⊢
            exact ih ys zs hab hbc
          · simp only [pyStrLe, if_neg hyz] at hbc ⊢
            exact hbc
        · simp only [pyStrLe, if_neg hxy] at hab
          have hab' : x < y := of_decide_eq_true hab
          by_cases hyz : y = z
          · subst hyz
            simp only [pyStrLe, if_neg hxy]
            exact decide_eq_true hab'
          · simp only [pyStrLe, if_neg hyz] at hbc
            have hbc' : y < z := of_decide_eq_true hbc
            have hxz : x < z := lt_trans hab' hbc'
            simp only [pyStrLe, if_neg (ne_of_lt hxz)]
            exact decide_eq_true hxz

theorem mem_insertSorted (x y : PyStr) (l : List PyStr) :
    y ∈ insertSorted x l ↔ y = x ∨ y ∈ l := by
  induction l with
  | nil => simp [insertSorted]
  | cons z zs ih =>
    by_cases h : pyStrLe x z = true
    · simp only [insertSorted, if_pos h, List.mem_cons]
    · simp only [insertSorted, if_neg h, List.mem_cons, ih]
      tauto

theorem insertSorted_perm (x : PyStr) (l : List PyStr) :
    (insertSorted x l).Perm (x :: l) := by
  induction l with
  | nil => simp [insertSorted]
  | cons z zs ih =>
    by_cases h : pyStrLe x z = true
    · simp [insertSorted, h]
    · rw [insertSorted, if_neg h]
      exact (ih.cons z).trans (List.Perm.swap x z zs)

theorem pySorted_perm (l : List PyStr) : (pySorted l).Perm l := by
  induction l with
  | nil => simp [pySorted]
  | cons x xs ih => exact (insertSorted_perm x (pySorted xs)).trans (ih.cons x)

theorem pairwise_insertSorted (x : PyStr) (l : List PyStr)
    (hl : l.Pairwise (fun a b => pyStrLe a b = true)) :
    (insertSorted x l).Pairwise (fun a b => pyStrLe a b = true) := by
  induction l with
  | nil => simp [insertSorted]
  | cons z zs ih =>
    rcases List.pairwise_cons.1 hl with ⟨hz, hzs⟩
    by_cases h : pyStrLe x z = true
    · rw [insertSorted, if_pos h]
      refine List.pairwise_cons.2 ⟨?_, hl⟩
      intro b hb
      rcases List.mem_cons.1 hb with rfl | hb
      · exact h
      · exact pyStrLe_trans x z b h (hz b hb)
    · rw [insertSorted, if_neg h]
      refine List.pairwise_cons.2 ⟨?_, ih hzs⟩
      intro b hb
      rcases (mem_insertSorted x b zs).1 hb with rfl | hb
      · rcases pyStrLe_total b z with h2 | h2
        · exact absurd h2 h
        · exact h2
      · exact hz b hb

theorem pySorted_pairwise (l : List PyStr) :
    (pySorted l).Pairwise (fun a b => pyStrLe a b = true) := by
  induction l with
  | nil => simp [pySorted]
  | cons x xs ih => exact pairwise_insertSorted x (pySorted xs) ih

theorem removePt_cons_ne_dot (c : Char) (rest : List Char) (hc : c ≠ '.') :
    removePt (c :: rest) = c :: removePt rest := by
  rw [removePt.eq_def]
  split
  · next r heq =>
    exfalso
    apply hc
    injection heq with h1 _
  · next c2 r2 heq =>
    injection heq with h1 h2
    rw [h1, h2]
  · next heq =>
    cases heq

/-- A file accepted by the `/voices` filter is nonempty and not hidden. -/
theorem goodVoiceFile_shape (f : PyStr) (h : goodVoiceFile f = true) :
    ∃ c rest, f = c :: rest ∧ c ≠ '.' := by
  cases f with
  | nil => exact absurd h (by decide)
  | cons c rest =>
    refine ⟨c, rest, rfl, ?_⟩
    intro hc
    subst hc
    simp [goodVoiceFile, pyS] at h

/-- C5 counterexample: the name `a.ptb.pt` passes the filter and every
occurrence of `.pt` is removed, yielding entry `ab`, not the
suffix-stripped `a.ptb` of the claim. -/
theorem claim_C5_counterexample :
    voicesOf [pyS "a.ptb.pt"] = [pyS "ab"] ∧
    voicesOfSpec [pyS "a.ptb.pt"] = [pyS "a.ptb"] ∧
    voicesOf [pyS "a.ptb.pt"] ≠ voicesOfSpec [pyS "a.ptb.pt"] := by
  decide

/-- C5 (amended): the `/voices` listing is sorted in the byte-wise string
order of Python's `sorted`, contains no entry starting with a dot, and is a
permutation of the non-hidden `.pt` file names with every occurrence of the
substring `.pt` removed (which coincides with stripping only the suffix
whenever `.pt` does not occur in the interior of a name). -/
theorem claim_C5 (files : List PyStr) :
    (voicesOf files).Pairwise (fun a b => pyStrLe a b = true) ∧
    (voicesOf files).Perm ((files.filter goodVoiceFile).map removePt) ∧
    ∀ v ∈ voicesOf files, v.take 1 ≠ pyS "." := by
  refine ⟨pySorted_pairwise _, pySorted_perm _, ?_⟩
  intro v hv
  have hv' : v ∈ (files.filter goodVoiceFile).map removePt :=
    (pySorted_perm _).mem_iff.1 hv
  rcases List.mem_map.1 hv' with ⟨f, hf, rfl⟩
  have hgood : goodVoiceFile f = true := List.of_mem_filter hf
  obtain ⟨c, rest, rfl, hc⟩ := goodVoiceFile_shape f hgood
  rw [removePt_cons_ne_dot c rest hc]
  intro hh
  apply hc
  have : c ∈ pyS "." := by
    rw [← hh]
    simp
  simpa [pyS] using this

/-- C5 witness: a concrete two-file directory gives a sorted, dot-free,
suffix-stripped listing. -/
theorem claim_C5_witness :
    (voicesOf [pyS "bf_emma.pt", pyS "af_heart.pt"]).Pairwise
      (fun a b => pyStrLe a b = true) ∧
    (voicesOf [pyS "bf_emma.pt", pyS "af_heart.pt"]).Perm
      (([pyS "bf_emma.pt", pyS "af_heart.pt"].filter goodVoiceFile).map removePt) ∧
    ∀ v ∈ voicesOf [pyS "bf_emma.pt", pyS "af_heart.pt"], v.take 1 ≠ pyS "." :=
  claim_C5 [pyS "bf_emma.pt", pyS "af_heart.pt"]

/-- C8: starting from a cache with at most one entry per language code (as
a Python dict guarantees), `generate_mp3` keeps the invariant at every
point: the final cache has no duplicate code, and replaying the cache
events of the trace against the initially live codes succeeds — every
pipeline creation happens only for a code with no live pipeline, so NaN
recovery always evicts before recreating and never holds two live pipelines
for one code. -/
theorem claim_C8 (o : Oracle) (text : JVal) (v : PyStr) (st : ServerState)
    (h : (dictKeys st.pipelines).Nodup) :
    (dictKeys ((generate_mp3 o text v st).2.1).pipelines).Nodup ∧
    replayOk (dictKeys st.pipelines) (generate_mp3 o text v st).2.2 = true := by
  cases v with
  | nil =>
    constructor
    · simpa [generate_mp3] using h
    · simp [generate_mp3, replayOk]
  | cons c rest =>
    have hnd1 : (dictKeys ((firstRound o c st).2.1).pipelines).Nodup :=
      get_pipeline_nodup o.warmup1 [c] st h
    have hnd2 : (dictKeys ((secondRound o c st).2.1).pipelines).Nodup := by
      unfold secondRound
      exact get_pipeline_nodup o.warmup2 [c] _ (nodup_dictKeys_dictPop _ [c] hnd1)
    have hnone : dictGet (dictPop ((firstRound o c st).2.1).pipelines [c]) [c] = none :=
      dictGet_dictPop_self _ _ hnd1
    have hsrE : (secondRound o c st).2.2 = [Ev.createPipe [c], Ev.warmupCall [c]] := by
      unfold secondRound
      rcases get_pipeline_cases o.warmup2 [c]
          { (firstRound o c st).2.1 with
            pipelines := dictPop ((firstRound o c st).2.1).pipelines [c] } with
        ⟨p2, hp2, he2⟩ | ⟨hp2, he2⟩
      · have hp2' : dictGet (dictPop ((firstRound o c st).2.1).pipelines [c]) [c] = some p2 := by
          simpa using hp2
        rw [hnone] at hp2'
        cases hp2'
      · rw [he2]
    have hfin : (dictKeys ((generate_mp3 o text (c :: rest) st).2.1).pipelines).Nodup := by
      rcases gen_shape o text c rest st with ⟨hst, _⟩ | ⟨hst, _⟩
      · rw [hst]
        exact hnd1
      · rcases hst with hst | hst <;> rw [hst]
        · exact hnd2
        · exact hnd2
    refine ⟨hfin, ?_⟩
    rcases get_pipeline_cases o.warmup1 [c] st with ⟨p, hp1, he1⟩ | ⟨hp1, he1⟩
    · -- the code was cached: the first round is a pure lookup
      have hfrE : (firstRound o c st).2.2 = [] := by rw [firstRound, he1]
      have hmemc : [c] ∈ dictKeys st.pipelines := by
        by_contra hmm
        rw [← dictGet_eq_none_iff] at hmm
        rw [hp1] at hmm
        cases hmm
      have herase : [c] ∉ (dictKeys st.pipelines).erase [c] :=
        fun hm => ((h.mem_erase_iff).1 hm).1 rfl
      rcases gen_shape o text c rest st with ⟨_, htr⟩ | ⟨_, htr⟩ <;>
        rcases htr with htr | htr | htr <;>
        rw [htr, hfrE] <;>
        (try rw [hsrE]) <;>
        simp [replayOk, herase]
    · -- the code was not cached: the first round constructs it
      have hfrE : (firstRound o c st).2.2 = [Ev.createPipe [c], Ev.warmupCall [c]] := by
        rw [firstRound, he1]
      have hmemc : [c] ∉ dictKeys st.pipelines := (dictGet_eq_none_iff _ _).1 hp1
      rcases gen_shape o text c rest st with ⟨_, htr⟩ | ⟨_, htr⟩ <;>
        rcases htr with htr | htr | htr <;>
        rw [htr, hfrE] <;>
        (try rw [hsrE]) <;>
        simp [replayOk, hmemc, List.erase_cons_head]

/-- C8 witness: concrete NaN-recovery run on the empty cache keeps the
invariant and replays cleanly. -/
theorem claim_C8_witness :
    (dictKeys ((generate_mp3 oNaNClean (JVal.jstr (pyS "hi"))
        (pyS "af_heart") st0).2.1).pipelines).Nodup ∧
    replayOk (dictKeys st0.pipelines)
      (generate_mp3 oNaNClean (JVal.jstr (pyS "hi")) (pyS "af_heart") st0).2.2 = true :=
  claim_C8 oNaNClean (JVal.jstr (pyS "hi")) (pyS "af_heart") st0 (by decide)

end Kokoro
